import Mathlib

deriving instance DecidableEq for Except

/-!
Verification of the vboxweb provider core against its specification.

The Go sources are shallowly embedded: pure functions become Lean
functions; machine integers (uint16 loop counters) become Nat with
explicit wraparound modulo 2^16; fallible operations return Except;
remote calls are modelled by oracles (records of call results) together
with an explicit world state that logs every remote call made.
-/

namespace VBoxWeb

/-! ## Models of the Go standard-library string operations

The Lean core String functions are not kernel-reducible, so the handful
of Go string operations the sources use are modelled directly on the
underlying character lists. Characters here are ASCII throughout, where
Go's Unicode-aware operations and these models agree. -/

/-- Model of Go strings.Split with a single-character separator: splits
at every occurrence; the empty string yields one empty field. -/
def splitCharList (sep : Char) : List Char → List (List Char)
  | [] => [[]]
  | c :: cs =>
    let r := splitCharList sep cs
    if c = sep then [] :: r
    else
      match r with
      | [] => [[c]]
      | h :: t => (c :: h) :: t

/-- Model of Go strings.Split at a one-character separator. -/
def goSplit (s : String) (sep : Char) : List String :=
  (splitCharList sep s.data).map fun l => ⟨l⟩

/-- Model of Go strings.ToLower (ASCII). -/
def goToLower (s : String) : String := ⟨s.data.map Char.toLower⟩

/-- Model of Go strings.TrimSpace: drops leading and trailing
whitespace. -/
def goTrim (s : String) : String :=
  ⟨((s.data.dropWhile Char.isWhitespace).reverse.dropWhile Char.isWhitespace).reverse⟩

/-- Helper for goContains: does sub occur as a prefix of any suffix. -/
def goContainsAux (sub : List Char) : List Char → Bool
  | [] => sub.isPrefixOf ([] : List Char)
  | c :: cs => sub.isPrefixOf (c :: cs) || goContainsAux sub cs

/-- Model of Go strings.Contains. -/
def goContains (s sub : String) : Bool := goContainsAux sub.data s.data

/-! ## Host IP normalization (internal/vbox, NormalizeHostIP / HostIPConflicts) -/

/-- Embedding of NormalizeHostIP: trims whitespace; empty string and
"0.0.0.0" are both treated as the "any" binding, canonically the empty
string. -/
def NormalizeHostIP (ip : String) : String :=
  let ip := goTrim ip
  if ip = "" ∨ ip = "0.0.0.0" then "" else ip

/-- Embedding of HostIPConflicts: two host IPs conflict if either
normalizes to "any" or the normalized forms are equal. -/
def HostIPConflicts (ip1 ip2 : String) : Bool :=
  let n1 := NormalizeHostIP ip1
  let n2 := NormalizeHostIP ip2
  if n1 = "" ∨ n2 = "" then true
  else n1 == n2

/-! ## Port allocator (internal/vbox/port_allocator.go) -/

/-- Embedding of HostIPScope. -/
inductive HostIPScope where
  | any
  | exact
deriving DecidableEq, Repr

/-- Embedding of UsedPort. Ports are uint16 in Go, embedded as Nat
(values below 2^16). -/
structure UsedPort where
  Port : Nat
  HostIP : String
deriving DecidableEq, Repr

/-- Embedding of PortAllocatorOptions. MinPort and MaxPort are uint16 in
Go, embedded as Nat. -/
structure PortAllocatorOptions where
  MinPort : Nat
  MaxPort : Nat
  HostIP : String
  Scope : HostIPScope
  IncludeNATNetworks : Bool
deriving DecidableEq, Repr

/-- Errors SelectAvailablePort can return. -/
inductive PortError where
  | invalidRange (minP maxP : Nat)
  | exhausted (minP maxP usedInRange rangeSize : Nat)
deriving DecidableEq, Repr

/-- The conflict set built by the first loop of SelectAvailablePort: a
used port record blocks a port when it is registered under a conflicting
binding (always, under scope any; under scope exact, when
HostIPConflicts holds between the candidate binding and the record's). -/
def usedSetOf (usedPorts : List UsedPort) (opts : PortAllocatorOptions) : Nat → Bool :=
  fun port => usedPorts.any fun up =>
    (if opts.Scope = HostIPScope.any then true else HostIPConflicts opts.HostIP up.HostIP)
      && up.Port == port

/-- The ascending scan loop of SelectAvailablePort. The Go loop variable
is a uint16, so the increment wraps modulo 2^16; the loop condition is
port <= maxPort. Fuel-indexed unrolling: none means the loop has not
decided within the given number of iterations; some none means the loop
exited by its condition without returning; some (some p) means the loop
returned port p. -/
def scanAvail (used : Nat → Bool) (maxPort : Nat) : Nat → Nat → Option (Option Nat)
  | 0, _ => none
  | fuel + 1, port =>
    if port > maxPort then some none
    else if used port = false then some (some port)
    else scanAvail used maxPort fuel ((port + 1) % 65536)

/-- The counting loop of SelectAvailablePort's exhaustion branch, with
the same uint16 loop structure. -/
def countUsedLoop (used : Nat → Bool) (maxPort : Nat) : Nat → Nat → Nat → Option Nat
  | 0, _, _ => none
  | fuel + 1, port, acc =>
    if port > maxPort then some acc
    else countUsedLoop used maxPort fuel ((port + 1) % 65536)
      (acc + if used port then 1 else 0)

/-- Fuel sufficient for any terminating run of the uint16 scan loops:
the loop state is a single port value below 2^16, so a run of 65537
iterations without a decision revisits a state and the (deterministic,
memoryless) loop never decides. -/
def scanFuel : Nat := 65537

/-- Embedding of SelectAvailablePort. A result of none means the Go
function does not terminate on this input (the fuel bound scanFuel
covers every terminating run, see scanFuel). -/
def SelectAvailablePort (usedPorts : List UsedPort) (opts : PortAllocatorOptions) :
    Option (Except PortError Nat) :=
  if opts.MinPort > opts.MaxPort then
    some (Except.error (PortError.invalidRange opts.MinPort opts.MaxPort))
  else
    let used := usedSetOf usedPorts opts
    match scanAvail used opts.MaxPort scanFuel opts.MinPort with
    | some (some p) => some (Except.ok p)
    | some none =>
      let rangeSize := opts.MaxPort - opts.MinPort + 1
      match countUsedLoop used opts.MaxPort scanFuel opts.MinPort 0 with
      | some usedInRange =>
        some (Except.error (PortError.exhausted opts.MinPort opts.MaxPort usedInRange rangeSize))
      | none => none
    | none => none

/-! ## NAT redirect codec (internal/vbox71 adapter) -/

/-- Embedding of the shared NATProtocol vocabulary. -/
inductive NATProtocol where
  | UDP
  | TCP
deriving DecidableEq, Repr

/-- Embedding of the shared NATRedirect structure. Ports are uint16 in
Go, embedded as Nat. -/
structure NATRedirect where
  Name : String
  Protocol : NATProtocol
  HostIP : String
  HostPort : Nat
  GuestIP : String
  GuestPort : Nat
deriving DecidableEq, Repr

/-- Parse errors of the two redirect decoders, mirroring the distinct
error messages of the Go source. -/
inductive ParseErr where
  | fieldCount (got : Nat)
  | invalidProtocolValue (raw : String)
  | unknownProtocolNumber (n : Int)
  | unknownProtocol (raw : String)
  | invalidHostPort (raw : String)
  | invalidGuestPort (raw : String)
deriving DecidableEq, Repr

/-- Digits-to-value accumulator shared by the numeric parser models. -/
def digitsToNat (l : List Char) : Nat :=
  l.foldl (fun a c => a * 10 + (c.toNat - '0'.toNat)) 0

/-- Model of the digit run accepted by Go strconv in base 10 (explicit
base, so no signs here and no underscores): a non-empty string of
decimal digits. -/
def parseDecDigits (cs : List Char) : Option Nat :=
  if cs.isEmpty then none
  else if cs.all Char.isDigit then some (digitsToNat cs) else none

/-- Model of Go strconv.ParseUint(s, 10, 16): a non-empty all-digit
string whose value fits in 16 bits; no sign is accepted. -/
def parseUint16 (s : String) : Option Nat :=
  match parseDecDigits s.data with
  | none => none
  | some v => if v < 65536 then some v else none

/-- Model of Go strconv.Atoi (strconv.ParseInt(s, 10, 64)): optional
single leading sign, then a non-empty digit run; the value must fit in a
signed 64-bit integer. -/
def atoi (s : String) : Option Int :=
  match s.data with
  | '+' :: rest =>
    (parseDecDigits rest).bind fun v =>
      if v ≤ 9223372036854775807 then some (Int.ofNat v) else none
  | '-' :: rest =>
    (parseDecDigits rest).bind fun v =>
      if v ≤ 9223372036854775808 then some (-(Int.ofNat v)) else none
  | cs =>
    (parseDecDigits cs).bind fun v =>
      if v ≤ 9223372036854775807 then some (Int.ofNat v) else none

/-- The body of parseNATRedirect71 applied to the comma-split fields.
Format: name,proto,hostIP,hostPort,guestIP,guestPort with proto 0=UDP,
1=TCP. -/
def parseNATRedirect71Fields : List String → Except ParseErr NATRedirect
  | [name, protoS, hostIPS, hostPortS, guestIPS, guestPortS] =>
    match atoi protoS with
    | none => Except.error (ParseErr.invalidProtocolValue protoS)
    | some protoNum =>
      let protoE : Except ParseErr NATProtocol :=
        if protoNum = 0 then Except.ok NATProtocol.UDP
        else if protoNum = 1 then Except.ok NATProtocol.TCP
        else Except.error (ParseErr.unknownProtocolNumber protoNum)
      match protoE with
      | Except.error e => Except.error e
      | Except.ok proto =>
        match parseUint16 hostPortS with
        | none => Except.error (ParseErr.invalidHostPort hostPortS)
        | some hostPort =>
          match parseUint16 guestPortS with
          | none => Except.error (ParseErr.invalidGuestPort guestPortS)
          | some guestPort =>
            Except.ok ⟨name, proto, hostIPS, hostPort, guestIPS, guestPort⟩
  | parts => Except.error (ParseErr.fieldCount parts.length)

/-- Embedding of parseNATRedirect71: splits on commas and decodes the 6
fields. -/
def parseNATRedirect71 (raw : String) : Except ParseErr NATRedirect :=
  parseNATRedirect71Fields (goSplit raw ',')

/-- The body of parseNATNetworkRule71 applied to the colon-split fields.
Format: name:proto:hostIP:hostPort:guestIP:guestPort with proto a
case-insensitive tcp/udp literal. -/
def parseNATNetworkRule71Fields : List String → Except ParseErr NATRedirect
  | [name, protoS, hostIPS, hostPortS, guestIPS, guestPortS] =>
    let protoE : Except ParseErr NATProtocol :=
      if goToLower protoS = "tcp" then Except.ok NATProtocol.TCP
      else if goToLower protoS = "udp" then Except.ok NATProtocol.UDP
      else Except.error (ParseErr.unknownProtocol protoS)
    match protoE with
    | Except.error e => Except.error e
    | Except.ok proto =>
      match parseUint16 hostPortS with
      | none => Except.error (ParseErr.invalidHostPort hostPortS)
      | some hostPort =>
        match parseUint16 guestPortS with
        | none => Except.error (ParseErr.invalidGuestPort guestPortS)
        | some guestPort =>
          Except.ok ⟨name, proto, hostIPS, hostPort, guestIPS, guestPort⟩
  | parts => Except.error (ParseErr.fieldCount parts.length)

/-- Embedding of parseNATNetworkRule71: splits on colons and decodes the
6 fields. -/
def parseNATNetworkRule71 (raw : String) : Except ParseErr NATRedirect :=
  parseNATNetworkRule71Fields (goSplit raw ':')

/-! ## Wait timeout parsing (internal/provider/resource_machine_clone.go) -/

/-- 20 * time.Minute, in nanoseconds (time.Duration units). -/
def twentyMinutes : Int := 1200000000000

/-- Embedding of parseTimeout. The standard-library duration parser
time.ParseDuration is not part of this repository, so it is abstracted
as the parameter parseDuration (none models a parse error; some d models
a successfully parsed duration of d nanoseconds). -/
def parseTimeout (parseDuration : String → Option Int) (s : String) : Int :=
  if goTrim s = "" then twentyMinutes
  else
    match parseDuration s with
    | none => twentyMinutes
    | some d => if d ≤ 0 then twentyMinutes else d

/-! ## Error model for the orchestrator (internal/vbox/client.go)

Go errors are modelled as an inductive carrying what the code later
observes about them: the distinguished errNotFound sentinel (reachable
through fmt.Errorf %w wrapping, which errors.Is unwraps), the two
context errors, the polling timeout error, the non-zero progress result
error, wrapped errors, and plain message errors. -/

inductive GoErr where
  | notFound (msg : String)
  | ctxCanceled
  | ctxDeadlineExceeded
  | timeoutAfter (d : Int)
  | progressFailed (rc : Int) (text : Option String)
  | wrapped (msg : String) (inner : GoErr)
  | errMsg (msg : String)
deriving DecidableEq, Repr

/-- Embedding of IsNotFound: errors.Is(err, errNotFound), which unwraps
fmt.Errorf %w chains. -/
def IsNotFound : GoErr → Bool
  | GoErr.notFound _ => true
  | GoErr.wrapped _ inner => IsNotFound inner
  | _ => false

/-- The remote calls the orchestrator can make, for the call log. -/
inductive Call where
  | getMachineState
  | getSessionObject
  | launchVMProcess
  | lockMachine
  | getConsole
  | powerDown
  | unlockSession
  | progressProbe
  | findMachineCall
  | getMutableMachine
  | getNetworkAdapter
  | getNATEngine
  | getNATRedirects
  | removeNATRedirect
  | saveSettings
deriving DecidableEq, Repr

/-- The remote mutation calls named by the state-convergence frame
property: launch, lock, console acquisition, and power-down. -/
def isMutationCall : Call → Bool
  | Call.launchVMProcess => true
  | Call.lockMachine => true
  | Call.getConsole => true
  | Call.powerDown => true
  | _ => false

/-- World state threaded through the embedded orchestrator code:
how many machine-state reads have happened (so a re-read can observe a
different state) and the log of remote calls made. -/
structure World where
  stateReads : Nat
  log : List Call
deriving DecidableEq, Repr

/-- Normalized machine state constants (vboxapi). -/
def MachineStateNull : String := "Null"

/-- Normalized machine state constants (vboxapi). -/
def MachineStatePoweredOff : String := "PoweredOff"

/-- Normalized machine state constants (vboxapi). -/
def MachineStateRunning : String := "Running"

/-- Normalized machine state constants (vboxapi). -/
def MachineStateSaved : String := "Saved"

/-- Normalized machine state constants (vboxapi). -/
def MachineStatePaused : String := "Paused"

/-! ## Long-running-operation polling (waitProgress) -/

/-- Oracle for one waitProgress run: the behaviour of the context, the
clock, and the remote progress object, indexed by loop iteration where
the code may observe different answers over time. -/
structure ProgressOracle where
  /-- Whether ctx.Done() is closed, as observed by iteration i's select. -/
  ctxDone : Nat → Bool
  /-- Whether the context error is Canceled (else DeadlineExceeded). -/
  ctxIsCanceled : Bool
  /-- Whether time.Now().After(deadline) at iteration i's check. -/
  nowPastDeadline : Nat → Bool
  /-- Result of GetProgressCompleted at iteration i. -/
  completed : Nat → Except GoErr Bool
  /-- Result of GetProgressResultCode once completed. -/
  resultCode : Except GoErr Int
  /-- Result of GetProgressErrorText once completed. -/
  errorText : Except GoErr String

/-- ctx.Err() of the modelled context: one of the two context errors. -/
def ProgressOracle.ctxError (o : ProgressOracle) : GoErr :=
  if o.ctxIsCanceled then GoErr.ctxCanceled else GoErr.ctxDeadlineExceeded

/-- The value of errText in waitProgress; the error of the enrichment
call is discarded and the string zero value remains. -/
def ProgressOracle.errTextValue (o : ProgressOracle) : String :=
  match o.errorText with
  | Except.ok t => t
  | Except.error _ => ""

/-- The completed-branch of waitProgress: fetch the result code; a
non-zero code is a failure, enriched with the remote error text when
that is obtainable and non-empty. -/
def progressOutcome (o : ProgressOracle) : Except GoErr Unit :=
  match o.resultCode with
  | Except.error e => Except.error (GoErr.wrapped "failed to get progress result code" e)
  | Except.ok rc =>
    if rc ≠ 0 then
      if o.errTextValue ≠ "" then
        Except.error (GoErr.progressFailed rc (some o.errTextValue))
      else
        Except.error (GoErr.progressFailed rc none)
    else Except.ok ()

/-- The waitProgress polling loop, unrolled with fuel from iteration i:
per iteration, first the context-cancellation check, then the deadline
check, then the completion probe, then sleep and repeat. Returns the
result together with the list of iterations at which the completion
probe actually ran; none means the run needs more than the given fuel. -/
def wpRun (o : ProgressOracle) (eff : Int) : Nat → Nat → Option (Except GoErr Unit × List Nat)
  | 0, _ => none
  | fuel + 1, i =>
    if o.ctxDone i then some (Except.error o.ctxError, [])
    else if o.nowPastDeadline i then some (Except.error (GoErr.timeoutAfter eff), [])
    else
      match o.completed i with
      | Except.error e =>
        some (Except.error (GoErr.wrapped "failed to get progress completion status" e), [i])
      | Except.ok true => some (progressOutcome o, [i])
      | Except.ok false =>
        match wpRun o eff fuel (i + 1) with
        | none => none
        | some (r, ps) => some (r, i :: ps)

/-- The timeout normalization at the top of waitProgress: non-positive
timeouts become 20 minutes. -/
def effTimeout (timeout : Int) : Int :=
  if timeout ≤ 0 then twentyMinutes else timeout

/-- Embedding of waitProgress: normalize the timeout and run the poll
loop from iteration 0. -/
def waitProgress (o : ProgressOracle) (timeout : Int) (fuel : Nat) :
    Option (Except GoErr Unit × List Nat) :=
  wpRun o (effTimeout timeout) fuel 0

/-! ## State convergence (convergeState / ensureRunning / ensurePoweredOff) -/

/-- Oracle for the state-convergence path: results of each remote call,
with machine-state reads indexed by how many reads happened before (the
state can change between reads). -/
structure VBoxOracle where
  /-- Result of the i-th GetMachineState call. -/
  machineStates : Nat → Except GoErr String
  /-- Result of GetSessionObject. -/
  sessionObject : Except GoErr String
  /-- Result of LaunchVMProcess with the given session type (a progress
  reference). -/
  launchProgress : String → Except GoErr String
  /-- Result of LockMachine. -/
  lockResult : Except GoErr Unit
  /-- Result of GetConsole. -/
  consoleRef : Except GoErr String
  /-- Result of PowerDown (a progress reference). -/
  powerDownProgress : Except GoErr String
  /-- Behaviour of the progress object behind a progress reference. -/
  progressOf : String → ProgressOracle

/-- Append a call to the world's log. -/
def World.push (w : World) (c : Call) : World :=
  { w with log := w.log ++ [c] }

/-- A GetMachineState call: logs it and consumes one read index. -/
def readState (o : VBoxOracle) (w : World) : Except GoErr String × World :=
  (o.machineStates w.stateReads,
    { stateReads := w.stateReads + 1, log := w.log ++ [Call.getMachineState] })

/-- Append the probe calls a waitProgress run made to the log. -/
def World.pushProbes (w : World) (ps : List Nat) : World :=
  { w with log := w.log ++ ps.map fun _ => Call.progressProbe }

/-- Embedding of ensureRunning: get a session object, launch the VM
process, wait on the progress, and always unlock afterwards (the unlock
result is discarded). -/
def ensureRunning (o : VBoxOracle) (sessionType : String) (timeout : Int) (fuel : Nat) (w : World) :
    Option (Except GoErr Unit × World) :=
  let w1 := w.push Call.getSessionObject
  match o.sessionObject with
  | Except.error e => some (Except.error e, w1)
  | Except.ok _sessObj =>
    let w2 := w1.push Call.launchVMProcess
    match o.launchProgress sessionType with
    | Except.error e => some (Except.error e, w2)
    | Except.ok progressRef =>
      match wpRun (o.progressOf progressRef) (effTimeout timeout) fuel 0 with
      | none => none
      | some (r, ps) =>
        let w3 := w2.pushProbes ps
        match r with
        | Except.error e => some (Except.error e, w3)
        | Except.ok _ => some (Except.ok (), w3.push Call.unlockSession)

/-- Embedding of ensurePoweredOff: get a session object, lock the
machine (shared), get the console, power down, wait on the progress, and
unlock (the unlock result is discarded). -/
def ensurePoweredOff (o : VBoxOracle) (timeout : Int) (fuel : Nat) (w : World) :
    Option (Except GoErr Unit × World) :=
  let w1 := w.push Call.getSessionObject
  match o.sessionObject with
  | Except.error e => some (Except.error e, w1)
  | Except.ok _sessObj =>
    let w2 := w1.push Call.lockMachine
    match o.lockResult with
    | Except.error e => some (Except.error e, w2)
    | Except.ok _ =>
      let w3 := w2.push Call.getConsole
      match o.consoleRef with
      | Except.error e => some (Except.error e, w3)
      | Except.ok _console =>
        let w4 := w3.push Call.powerDown
        match o.powerDownProgress with
        | Except.error e => some (Except.error e, w4)
        | Except.ok progressRef =>
          match wpRun (o.progressOf progressRef) (effTimeout timeout) fuel 0 with
          | none => none
          | some (r, ps) =>
            let w5 := w4.pushProbes ps
            match r with
            | Except.error e => some (Except.error e, w5)
            | Except.ok _ => some (Except.ok (), w5.push Call.unlockSession)

/-- The trailing re-read of convergeState: observe the machine state
again and return it. -/
def rereadState (o : VBoxOracle) (w : World) : Option (Except GoErr String × World) :=
  match readState o w with
  | (Except.error e, w') => some (Except.error e, w')
  | (Except.ok st, w') => some (Except.ok st, w')

/-- Embedding of convergeState: read the current state; if it already
equals the target, return it unchanged; otherwise run the transition
helper and then re-read and return the freshly observed state. -/
def convergeState (o : VBoxOracle) (desiredState sessionType : String) (timeout : Int)
    (fuel : Nat) (w : World) : Option (Except GoErr String × World) :=
  match readState o w with
  | (Except.error e, w1) => some (Except.error e, w1)
  | (Except.ok st, w1) =>
    let want := goToLower desiredState
    if want = "started" then
      if st = MachineStateRunning then some (Except.ok st, w1)
      else
        match ensureRunning o sessionType timeout fuel w1 with
        | none => none
        | some (Except.error e, w2) => some (Except.error e, w2)
        | some (Except.ok _, w2) => rereadState o w2
    else if want = "stopped" then
      if st = MachineStatePoweredOff then some (Except.ok st, w1)
      else
        match ensurePoweredOff o timeout fuel w1 with
        | none => none
        | some (Except.error e, w2) => some (Except.error e, w2)
        | some (Except.ok _, w2) => rereadState o w2
    else
      some (Except.error (GoErr.errMsg ("invalid desired state: " ++ desiredState)), w1)

/-! ## NAT port-forward operations (client.go: findMachine,
ReadNATPortForward, DeleteNATPortForward) -/

/-- Embedding of the orchestrator-level NATPortForwardRule. -/
structure NATPortForwardRule where
  MachineID : String
  AdapterSlot : Nat
  Name : String
  Protocol : NATProtocol
  HostIP : String
  HostPort : Nat
  GuestIP : String
  GuestPort : Nat
deriving DecidableEq, Repr

/-- Oracle for the NAT rule operations: results of each remote call.
FindMachine and RemoveNATRedirect carry their error text, which the code
inspects by substring. -/
structure NATOracle where
  /-- Result of api.FindMachine: a machine reference, or the error text. -/
  findMachineRaw : Except String String
  /-- Result of GetSessionObject. -/
  sessionObject : Except GoErr String
  /-- Result of LockMachine. -/
  lockResult : Except GoErr Unit
  /-- Result of GetMutableMachine. -/
  mutableMachine : Except GoErr String
  /-- Result of GetNetworkAdapter at the requested slot. -/
  networkAdapter : Except GoErr String
  /-- Result of GetNATEngine. -/
  natEngine : Except GoErr String
  /-- Result of GetNATRedirects. -/
  redirects : Except GoErr (List NATRedirect)
  /-- Result of RemoveNATRedirect for a given rule name, or the error
  text. -/
  removeRedirect : String → Except String Unit
  /-- Result of SaveSettings. -/
  saveSettings : Except GoErr Unit

/-- Embedding of the findMachine helper: a FindMachine failure whose
lowercased text contains "could not find" or "object not found" becomes
the distinguished errNotFound (wrapped with the machine name), as does
an empty (after trimming) returned reference. -/
def findMachine (o : NATOracle) (nameOrID : String) (w : World) :
    Except GoErr String × World :=
  let w' := w.push Call.findMachineCall
  match o.findMachineRaw with
  | Except.error m =>
    let errLower := goToLower m
    if goContains errLower "could not find" || goContains errLower "object not found" then
      (Except.error (GoErr.notFound ("not found: machine " ++ nameOrID)), w')
    else
      (Except.error (GoErr.errMsg m), w')
  | Except.ok machineRef =>
    if goTrim machineRef = "" then
      (Except.error (GoErr.notFound ("not found: machine " ++ nameOrID)), w')
    else
      (Except.ok machineRef, w')

/-- Embedding of ReadNATPortForward: resolve the machine (errors,
including NotFound, bubble up), walk to the adapter's NAT engine,
enumerate redirects and search by name; an absent rule yields ok none
rather than an error. -/
def ReadNATPortForward (o : NATOracle) (machineID : String) (adapterSlot : Nat)
    (name : String) (w : World) : Except GoErr (Option NATPortForwardRule) × World :=
  match findMachine o machineID w with
  | (Except.error e, w1) => (Except.error e, w1)
  | (Except.ok _machineRef, w1) =>
    let w2 := w1.push Call.getNetworkAdapter
    match o.networkAdapter with
    | Except.error e =>
      (Except.error (GoErr.wrapped ("failed to get network adapter slot " ++ toString adapterSlot) e), w2)
    | Except.ok _adapter =>
      let w3 := w2.push Call.getNATEngine
      match o.natEngine with
      | Except.error e => (Except.error (GoErr.wrapped "failed to get NAT engine" e), w3)
      | Except.ok _engine =>
        let w4 := w3.push Call.getNATRedirects
        match o.redirects with
        | Except.error e => (Except.error (GoErr.wrapped "failed to get NAT redirects" e), w4)
        | Except.ok rs =>
          match rs.find? (fun r => r.Name == name) with
          | some r =>
            (Except.ok (some ⟨machineID, adapterSlot, r.Name, r.Protocol, r.HostIP,
              r.HostPort, r.GuestIP, r.GuestPort⟩), w4)
          | none => (Except.ok none, w4)

/-- The deferred UnlockSession of the locked section. -/
def unlockW (w : World) : World := w.push Call.unlockSession

/-- Embedding of DeleteNATPortForward: a NotFound machine is success; a
redirect-removal failure whose lowercased text contains "not found" or
"does not exist" is swallowed; settings are then saved; the session is
always unlocked once locked. -/
def DeleteNATPortForward (o : NATOracle) (machineID : String) (adapterSlot : Nat)
    (name : String) (w : World) : Except GoErr Unit × World :=
  match findMachine o machineID w with
  | (Except.error e, w1) =>
    if IsNotFound e then (Except.ok (), w1) else (Except.error e, w1)
  | (Except.ok _machineRef, w1) =>
    let w2 := w1.push Call.getSessionObject
    match o.sessionObject with
    | Except.error e => (Except.error (GoErr.wrapped "failed to get session object" e), w2)
    | Except.ok _sessObj =>
      let w3 := w2.push Call.lockMachine
      match o.lockResult with
      | Except.error e => (Except.error (GoErr.wrapped "failed to lock machine" e), w3)
      | Except.ok _ =>
        let w4 := w3.push Call.getMutableMachine
        match o.mutableMachine with
        | Except.error e =>
          (Except.error (GoErr.wrapped "failed to get mutable machine" e), unlockW w4)
        | Except.ok _mutable =>
          let w5 := w4.push Call.getNetworkAdapter
          match o.networkAdapter with
          | Except.error e =>
            (Except.error (GoErr.wrapped ("failed to get network adapter slot "
              ++ toString adapterSlot) e), unlockW w5)
          | Except.ok _adapter =>
            let w6 := w5.push Call.getNATEngine
            match o.natEngine with
            | Except.error e =>
              (Except.error (GoErr.wrapped "failed to get NAT engine" e), unlockW w6)
            | Except.ok _engine =>
              let w7 := w6.push Call.removeNATRedirect
              let removeOutcome : Except GoErr Unit :=
                match o.removeRedirect name with
                | Except.error m =>
                  let errLower := goToLower m
                  if !(goContains errLower "not found") && !(goContains errLower "does not exist") then
                    Except.error (GoErr.wrapped "failed to remove NAT redirect" (GoErr.errMsg m))
                  else Except.ok ()
                | Except.ok _ => Except.ok ()
              match removeOutcome with
              | Except.error e => (Except.error e, unlockW w7)
              | Except.ok _ =>
                let w8 := w7.push Call.saveSettings
                match o.saveSettings with
                | Except.error e =>
                  (Except.error (GoErr.wrapped "failed to save machine settings" e), unlockW w8)
                | Except.ok _ => (Except.ok (), unlockW w8)

/-! ## Theorems -/

theorem hostIPConflicts_symm_aux : ∀ a b, HostIPConflicts a b = HostIPConflicts b a := by
  intro a b
  unfold HostIPConflicts
  by_cases h1 : NormalizeHostIP a = "" <;> by_cases h2 : NormalizeHostIP b = "" <;>
    simp [h1, h2]
  constructor <;> (intro h; exact h.symm)

theorem hostIPConflicts_any_aux : ∀ x, HostIPConflicts "" x = true := by
  intro x
  have h : NormalizeHostIP "" = "" := rfl
  unfold HostIPConflicts
  simp [h]

theorem hostIPConflicts_exact_aux : ∀ a b, NormalizeHostIP a ≠ "" → NormalizeHostIP b ≠ "" →
    (HostIPConflicts a b = true ↔ NormalizeHostIP a = NormalizeHostIP b) := by
  intro a b h1 h2
  unfold HostIPConflicts
  simp [h1, h2]

/-- C2: HostIPConflicts is symmetric; the empty string conflicts with
everything; "0.0.0.0" behaves as the "any" binding, so it conflicts with
"127.0.0.1"; when neither side normalizes to "any", conflict holds
exactly when the normalized strings are equal; and two distinct concrete
bindings do not conflict. -/
theorem hostIPConflicts_spec :
    (∀ a b, HostIPConflicts a b = HostIPConflicts b a)
    ∧ (∀ x, HostIPConflicts "" x = true)
    ∧ HostIPConflicts "0.0.0.0" "127.0.0.1" = true
    ∧ (∀ a b, NormalizeHostIP a ≠ "" → NormalizeHostIP b ≠ "" →
        (HostIPConflicts a b = true ↔ NormalizeHostIP a = NormalizeHostIP b))
    ∧ HostIPConflicts "127.0.0.1" "192.168.1.1" = false :=
  ⟨hostIPConflicts_symm_aux, hostIPConflicts_any_aux, by decide,
    hostIPConflicts_exact_aux, by decide⟩

/-- Witness for hostIPConflicts_spec: the quantified parts applied at
concrete bindings. -/
theorem hostIPConflicts_spec_witness :
    HostIPConflicts "10.0.0.1" "10.0.0.2" = HostIPConflicts "10.0.0.2" "10.0.0.1"
    ∧ HostIPConflicts "" "192.168.0.9" = true
    ∧ (HostIPConflicts "10.0.0.1" "10.0.0.2" = true ↔
        NormalizeHostIP "10.0.0.1" = NormalizeHostIP "10.0.0.2") :=
  ⟨hostIPConflicts_spec.1 "10.0.0.1" "10.0.0.2",
    hostIPConflicts_spec.2.1 "192.168.0.9",
    hostIPConflicts_spec.2.2.2.1 "10.0.0.1" "10.0.0.2" (by decide) (by decide)⟩

/-- C9: parseTimeout returns the 20-minute default on the empty (after
trimming) string, on a parse failure, and on a non-positive parsed
duration; a positive parsed duration (possible only for strings that are
not all whitespace, as the Go duration parser rejects those) is returned
as is, and no case is an error. -/
theorem parseTimeout_spec :
    ∀ (parseDuration : String → Option Int) (s : String),
      (goTrim s = "" → parseTimeout parseDuration s = twentyMinutes)
      ∧ (parseDuration s = none → parseTimeout parseDuration s = twentyMinutes)
      ∧ (∀ d, parseDuration s = some d → d ≤ 0 →
          parseTimeout parseDuration s = twentyMinutes)
      ∧ (∀ d, parseDuration s = some d → 0 < d → goTrim s ≠ "" →
          parseTimeout parseDuration s = d) := by
  intro pd s
  refine ⟨?_, ?_, ?_, ?_⟩ <;> unfold parseTimeout
  · intro h
    rw [if_pos h]
  · intro h
    by_cases ht : goTrim s = ""
    · rw [if_pos ht]
    · rw [if_neg ht, h]
  · intro d h hd
    by_cases ht : goTrim s = ""
    · rw [if_pos ht]
    · rw [if_neg ht, h]
      simp only [if_pos hd]
  · intro d h hd hne
    rw [if_neg hne, h]
    simp only [if_neg (by omega : ¬ d ≤ 0)]

/-- Witness for parseTimeout_spec at concrete strings and parsers. -/
theorem parseTimeout_spec_witness :
    parseTimeout (fun _ => none) "  " = twentyMinutes
    ∧ parseTimeout (fun _ => none) "bogus" = twentyMinutes
    ∧ parseTimeout (fun _ => some (-7000000000)) "-7s" = twentyMinutes
    ∧ parseTimeout (fun s => if s = "30m" then some 1800000000000 else none) "30m"
        = 1800000000000 :=
  ⟨(parseTimeout_spec (fun _ => none) "  ").1 (by decide),
    (parseTimeout_spec (fun _ => none) "bogus").2.1 rfl,
    (parseTimeout_spec (fun _ => some (-7000000000)) "-7s").2.2.1 (-7000000000) rfl (by decide),
    (parseTimeout_spec (fun s => if s = "30m" then some 1800000000000 else none) "30m").2.2.2
      1800000000000 (by decide) (by decide) (by decide)⟩

/-- C1: the uint16 loop variable of SelectAvailablePort wraps past
65535, so with range [65535, 65535] and the only in-range port used, the
scan wraps to port 0 and returns it successfully, although 0 is outside
the requested range and the specified behaviour is an exhaustion error
reporting 1 of 1 ports in use. -/
theorem selectAvailablePort_wraparound_bug :
    SelectAvailablePort [⟨65535, ""⟩] ⟨65535, 65535, "", HostIPScope.any, true⟩
      = some (Except.ok 0) := rfl

/-- The used-port list registering every uint16 port. -/
def allPortsUsed : List UsedPort := (List.range 65536).map fun p => ⟨p, ""⟩

/-- Options asking for the full uint16 range under scope any. -/
def fullRangeOpts : PortAllocatorOptions := ⟨0, 65535, "", HostIPScope.any, true⟩

theorem allPortsUsed_hit (p : Nat) (hp : p < 65536) :
    usedSetOf allPortsUsed fullRangeOpts p = true := by
  unfold usedSetOf allPortsUsed fullRangeOpts
  simp [List.any_eq_true]
  omega

theorem scanAvail_all_used (used : Nat → Bool) (h : ∀ p, p ≤ 65535 → used p = true) :
    ∀ fuel port, port ≤ 65535 → scanAvail used 65535 fuel port = none := by
  intro fuel
  induction fuel with
  | zero => intro port _; rfl
  | succ n ih =>
    intro port hport
    unfold scanAvail
    rw [if_neg (by omega)]
    rw [h port hport]
    simp only [Bool.true_eq_false, if_false]
    exact ih _ (by omega)

/-- C10: with MaxPort = 65535 the scan loop's uint16 condition
port <= 65535 never fails, so when every port is in the conflict set the
loop never decides at any fuel, and SelectAvailablePort does not
terminate on that input (none encodes divergence in this embedding). -/
theorem selectAvailablePort_divergence :
    (∀ fuel port, port ≤ 65535 →
      scanAvail (usedSetOf allPortsUsed fullRangeOpts) 65535 fuel port = none)
    ∧ SelectAvailablePort allPortsUsed fullRangeOpts = none := by
  have hhit : ∀ p, p ≤ 65535 → usedSetOf allPortsUsed fullRangeOpts p = true := by
    intro p hp
    exact allPortsUsed_hit p (by omega)
  refine ⟨scanAvail_all_used _ hhit, ?_⟩
  have hscan := scanAvail_all_used _ hhit scanFuel 0 (by omega)
  unfold SelectAvailablePort
  rw [if_neg (by decide)]
  have e1 : fullRangeOpts.MaxPort = 65535 := rfl
  have e2 : fullRangeOpts.MinPort = 0 := rfl
  rw [e1, e2]
  simp only [hscan]

/-- Witness for selectAvailablePort_divergence: the scan is undecided at
a concrete fuel and start port, and the embedded function reports
divergence. -/
theorem selectAvailablePort_divergence_witness :
    scanAvail (usedSetOf allPortsUsed fullRangeOpts) 65535 3 0 = none
    ∧ SelectAvailablePort allPortsUsed fullRangeOpts = none :=
  ⟨selectAvailablePort_divergence.1 3 0 (by decide),
    selectAvailablePort_divergence.2⟩

theorem parse71Fields_ne6 (l : List String) (h : l.length ≠ 6) :
    parseNATRedirect71Fields l = Except.error (ParseErr.fieldCount l.length) := by
  match l with
  | [] => rfl
  | [_] => rfl
  | [_, _] => rfl
  | [_, _, _] => rfl
  | [_, _, _, _] => rfl
  | [_, _, _, _, _] => rfl
  | [_, _, _, _, _, _] => exact absurd rfl h
  | _ :: _ :: _ :: _ :: _ :: _ :: _ :: _ => rfl

theorem parse71_ok (s n p hip hps gip gps : String) (v : Int) (hp gp : Nat)
    (hsplit : goSplit s ',' = [n, p, hip, hps, gip, gps])
    (hv : atoi p = some v) (hv01 : v = 0 ∨ v = 1)
    (hhp : parseUint16 hps = some hp) (hgp : parseUint16 gps = some gp) :
    parseNATRedirect71 s
      = Except.ok ⟨n, if v = 0 then NATProtocol.UDP else NATProtocol.TCP, hip, hp, gip, gp⟩ := by
  unfold parseNATRedirect71
  rw [hsplit]
  unfold parseNATRedirect71Fields
  rcases hv01 with h0 | h1
  · subst h0
    simp [hv, hhp, hgp]
  · subst h1
    simp [hv, hhp, hgp]

theorem parse71_protoFail (s n p hip hps gip gps : String)
    (hsplit : goSplit s ',' = [n, p, hip, hps, gip, gps])
    (hbad : atoi p = none ∨ ∃ v, atoi p = some v ∧ v ≠ 0 ∧ v ≠ 1) :
    ∃ e, parseNATRedirect71 s = Except.error e := by
  unfold parseNATRedirect71
  rw [hsplit]
  unfold parseNATRedirect71Fields
  rcases hbad with h | ⟨v, hv, h0, h1⟩
  · exact ⟨ParseErr.invalidProtocolValue p, by simp [h]⟩
  · exact ⟨ParseErr.unknownProtocolNumber v, by simp [hv, h0, h1]⟩

theorem parse71_portFail (s n p hip hps gip gps : String)
    (hsplit : goSplit s ',' = [n, p, hip, hps, gip, gps])
    (hbad : parseUint16 hps = none ∨ parseUint16 gps = none) :
    ∃ e, parseNATRedirect71 s = Except.error e := by
  unfold parseNATRedirect71
  rw [hsplit]
  unfold parseNATRedirect71Fields
  cases hv : atoi p with
  | none => exact ⟨ParseErr.invalidProtocolValue p, by simp [hv]⟩
  | some v =>
    by_cases h0 : v = 0
    · subst h0
      cases hhp : parseUint16 hps with
      | none => exact ⟨ParseErr.invalidHostPort hps, by simp [hv, hhp]⟩
      | some hpv =>
        cases hgp : parseUint16 gps with
        | none => exact ⟨ParseErr.invalidGuestPort gps, by simp [hv, hhp, hgp]⟩
        | some gpv =>
          rcases hbad with hb | hb
          · rw [hhp] at hb; cases hb
          · rw [hgp] at hb; cases hb
    · by_cases h1 : v = 1
      · subst h1
        cases hhp : parseUint16 hps with
        | none => exact ⟨ParseErr.invalidHostPort hps, by simp [hv, hhp]⟩
        | some hpv =>
          cases hgp : parseUint16 gps with
          | none => exact ⟨ParseErr.invalidGuestPort gps, by simp [hv, hhp, hgp]⟩
          | some gpv =>
            rcases hbad with hb | hb
            · rw [hhp] at hb; cases hb
            · rw [hgp] at hb; cases hb
      · exact ⟨ParseErr.unknownProtocolNumber v, by simp [hv, h0, h1]⟩

/-- C7: a 6-field comma string whose protocol field parses to 0 or 1 and
whose port fields parse as uint16 decodes to exactly those fields (0
mapping to UDP, 1 to TCP); a field count other than 6, a protocol field
that is not 0 or 1, or a port field that fails uint16 parsing makes the
decode fail with a parse error. -/
theorem parseNATRedirect71_spec :
    (∀ (s n p hip hps gip gps : String) (v : Int) (hp gp : Nat),
      goSplit s ',' = [n, p, hip, hps, gip, gps] →
      atoi p = some v → (v = 0 ∨ v = 1) →
      parseUint16 hps = some hp → parseUint16 gps = some gp →
      parseNATRedirect71 s
        = Except.ok ⟨n, if v = 0 then NATProtocol.UDP else NATProtocol.TCP, hip, hp, gip, gp⟩)
    ∧ (∀ s : String, (goSplit s ',').length ≠ 6 →
        parseNATRedirect71 s = Except.error (ParseErr.fieldCount (goSplit s ',').length))
    ∧ (∀ (s n p hip hps gip gps : String),
        goSplit s ',' = [n, p, hip, hps, gip, gps] →
        (atoi p = none ∨ ∃ v, atoi p = some v ∧ v ≠ 0 ∧ v ≠ 1) →
        ∃ e, parseNATRedirect71 s = Except.error e)
    ∧ (∀ (s n p hip hps gip gps : String),
        goSplit s ',' = [n, p, hip, hps, gip, gps] →
        (parseUint16 hps = none ∨ parseUint16 gps = none) →
        ∃ e, parseNATRedirect71 s = Except.error e) :=
  ⟨parse71_ok, fun s h => parse71Fields_ne6 (goSplit s ',') h,
    parse71_protoFail, parse71_portFail⟩

/-- Witness for parseNATRedirect71_spec: a valid redirect round-trips; a
short string, an out-of-range protocol, and an oversized port all fail. -/
theorem parseNATRedirect71_spec_witness :
    parseNATRedirect71 "dns,0,,53,,53"
      = Except.ok ⟨"dns", NATProtocol.UDP, "", 53, "", 53⟩
    ∧ parseNATRedirect71 "a,b" = Except.error (ParseErr.fieldCount 2)
    ∧ (∃ e, parseNATRedirect71 "ssh,2,127.0.0.1,2222,10.0.2.15,22" = Except.error e)
    ∧ (∃ e, parseNATRedirect71 "web,1,,99999,,80" = Except.error e) :=
  ⟨parseNATRedirect71_spec.1 "dns,0,,53,,53" "dns" "0" "" "53" "" "53" 0 53 53
      (by decide) (by decide) (Or.inl rfl) (by decide) (by decide),
    parseNATRedirect71_spec.2.1 "a,b" (by decide),
    parseNATRedirect71_spec.2.2.1 "ssh,2,127.0.0.1,2222,10.0.2.15,22"
      "ssh" "2" "127.0.0.1" "2222" "10.0.2.15" "22" (by decide)
      (Or.inr ⟨2, by decide, by decide, by decide⟩),
    parseNATRedirect71_spec.2.2.2 "web,1,,99999,,80" "web" "1" "" "99999" "" "80"
      (by decide) (Or.inl (by decide))⟩

theorem parseNet71Fields_ne6 (l : List String) (h : l.length ≠ 6) :
    parseNATNetworkRule71Fields l = Except.error (ParseErr.fieldCount l.length) := by
  match l with
  | [] => rfl
  | [_] => rfl
  | [_, _] => rfl
  | [_, _, _] => rfl
  | [_, _, _, _] => rfl
  | [_, _, _, _, _] => rfl
  | [_, _, _, _, _, _] => exact absurd rfl h
  | _ :: _ :: _ :: _ :: _ :: _ :: _ :: _ => rfl

theorem parseNet71_ok_tcp (s n p hip hps gip gps : String) (hp gp : Nat)
    (hsplit : goSplit s ':' = [n, p, hip, hps, gip, gps])
    (hproto : goToLower p = "tcp")
    (hhp : parseUint16 hps = some hp) (hgp : parseUint16 gps = some gp) :
    parseNATNetworkRule71 s = Except.ok ⟨n, NATProtocol.TCP, hip, hp, gip, gp⟩ := by
  unfold parseNATNetworkRule71
  rw [hsplit]
  unfold parseNATNetworkRule71Fields
  simp [hproto, hhp, hgp]

theorem parseNet71_ok_udp (s n p hip hps gip gps : String) (hp gp : Nat)
    (hsplit : goSplit s ':' = [n, p, hip, hps, gip, gps])
    (hproto : goToLower p = "udp")
    (hhp : parseUint16 hps = some hp) (hgp : parseUint16 gps = some gp) :
    parseNATNetworkRule71 s = Except.ok ⟨n, NATProtocol.UDP, hip, hp, gip, gp⟩ := by
  unfold parseNATNetworkRule71
  rw [hsplit]
  unfold parseNATNetworkRule71Fields
  simp [hproto, hhp, hgp]

theorem parseNet71_badProto (s n p hip hps gip gps : String)
    (hsplit : goSplit s ':' = [n, p, hip, hps, gip, gps])
    (htcp : goToLower p ≠ "tcp") (hudp : goToLower p ≠ "udp") :
    parseNATNetworkRule71 s = Except.error (ParseErr.unknownProtocol p) := by
  unfold parseNATNetworkRule71
  rw [hsplit]
  unfold parseNATNetworkRule71Fields
  simp [htcp, hudp]

theorem parseNet71_portFail (s n p hip hps gip gps : String)
    (hsplit : goSplit s ':' = [n, p, hip, hps, gip, gps])
    (hbad : parseUint16 hps = none ∨ parseUint16 gps = none) :
    ∃ e, parseNATNetworkRule71 s = Except.error e := by
  unfold parseNATNetworkRule71
  rw [hsplit]
  unfold parseNATNetworkRule71Fields
  by_cases ht : goToLower p = "tcp"
  case neg =>
    by_cases hu : goToLower p = "udp"
    case neg => exact ⟨ParseErr.unknownProtocol p, by simp [ht, hu]⟩
    case pos =>
      cases hhp : parseUint16 hps with
      | none => exact ⟨ParseErr.invalidHostPort hps, by simp [ht, hu, hhp]⟩
      | some hpv =>
        cases hgp : parseUint16 gps with
        | none => exact ⟨ParseErr.invalidGuestPort gps, by simp [ht, hu, hhp, hgp]⟩
        | some gpv =>
          rcases hbad with hb | hb
          · rw [hhp] at hb; cases hb
          · rw [hgp] at hb; cases hb
  case pos =>
    cases hhp : parseUint16 hps with
    | none => exact ⟨ParseErr.invalidHostPort hps, by simp [ht, hhp]⟩
    | some hpv =>
      cases hgp : parseUint16 gps with
      | none => exact ⟨ParseErr.invalidGuestPort gps, by simp [ht, hhp, hgp]⟩
      | some gpv =>
        rcases hbad with hb | hb
        · rw [hhp] at hb; cases hb
        · rw [hgp] at hb; cases hb

/-- C8: the colon-format decoder matches the protocol token
case-insensitively — any token lowercasing to "tcp" decodes to TCP and
any token lowercasing to "udp" decodes to UDP; any other token fails
with a parse error; and the comma format's remaining failure conditions
(field count not 6, unparsable port) fail here too. -/
theorem parseNATNetworkRule71_spec :
    (∀ (s n p hip hps gip gps : String) (hp gp : Nat),
      goSplit s ':' = [n, p, hip, hps, gip, gps] →
      goToLower p = "tcp" →
      parseUint16 hps = some hp → parseUint16 gps = some gp →
      parseNATNetworkRule71 s = Except.ok ⟨n, NATProtocol.TCP, hip, hp, gip, gp⟩)
    ∧ (∀ (s n p hip hps gip gps : String) (hp gp : Nat),
      goSplit s ':' = [n, p, hip, hps, gip, gps] →
      goToLower p = "udp" →
      parseUint16 hps = some hp → parseUint16 gps = some gp →
      parseNATNetworkRule71 s = Except.ok ⟨n, NATProtocol.UDP, hip, hp, gip, gp⟩)
    ∧ (∀ (s n p hip hps gip gps : String),
      goSplit s ':' = [n, p, hip, hps, gip, gps] →
      goToLower p ≠ "tcp" → goToLower p ≠ "udp" →
      parseNATNetworkRule71 s = Except.error (ParseErr.unknownProtocol p))
    ∧ (∀ s : String, (goSplit s ':').length ≠ 6 →
        parseNATNetworkRule71 s = Except.error (ParseErr.fieldCount (goSplit s ':').length))
    ∧ (∀ (s n p hip hps gip gps : String),
      goSplit s ':' = [n, p, hip, hps, gip, gps] →
      (parseUint16 hps = none ∨ parseUint16 gps = none) →
      ∃ e, parseNATNetworkRule71 s = Except.error e) :=
  ⟨parseNet71_ok_tcp, parseNet71_ok_udp, parseNet71_badProto,
    fun s h => parseNet71Fields_ne6 (goSplit s ':') h, parseNet71_portFail⟩

/-- Witness for parseNATNetworkRule71_spec: three casings of tcp and one
of udp decode; an unknown token, a short string, and a bad port fail. -/
theorem parseNATNetworkRule71_spec_witness :
    parseNATNetworkRule71 "web:TCP:0.0.0.0:8080:10.0.2.4:80"
      = Except.ok ⟨"web", NATProtocol.TCP, "0.0.0.0", 8080, "10.0.2.4", 80⟩
    ∧ parseNATNetworkRule71 "web:tcp:0.0.0.0:8080:10.0.2.4:80"
      = Except.ok ⟨"web", NATProtocol.TCP, "0.0.0.0", 8080, "10.0.2.4", 80⟩
    ∧ parseNATNetworkRule71 "web:Tcp:0.0.0.0:8080:10.0.2.4:80"
      = Except.ok ⟨"web", NATProtocol.TCP, "0.0.0.0", 8080, "10.0.2.4", 80⟩
    ∧ parseNATNetworkRule71 "dns:uDp:::53::53"
      = Except.error (ParseErr.fieldCount 7)
    ∧ parseNATNetworkRule71 "dns:UDP::53::53"
      = Except.ok ⟨"dns", NATProtocol.UDP, "", 53, "", 53⟩
    ∧ parseNATNetworkRule71 "x:gopher:a:1:b:2"
      = Except.error (ParseErr.unknownProtocol "gopher")
    ∧ (∃ e, parseNATNetworkRule71 "x:udp:a:70000:b:2" = Except.error e) :=
  ⟨parseNATNetworkRule71_spec.1 "web:TCP:0.0.0.0:8080:10.0.2.4:80"
      "web" "TCP" "0.0.0.0" "8080" "10.0.2.4" "80" 8080 80
      (by decide) (by decide) (by decide) (by decide),
    parseNATNetworkRule71_spec.1 "web:tcp:0.0.0.0:8080:10.0.2.4:80"
      "web" "tcp" "0.0.0.0" "8080" "10.0.2.4" "80" 8080 80
      (by decide) (by decide) (by decide) (by decide),
    parseNATNetworkRule71_spec.1 "web:Tcp:0.0.0.0:8080:10.0.2.4:80"
      "web" "Tcp" "0.0.0.0" "8080" "10.0.2.4" "80" 8080 80
      (by decide) (by decide) (by decide) (by decide),
    parseNATNetworkRule71_spec.2.2.2.1 "dns:uDp:::53::53" (by decide),
    parseNATNetworkRule71_spec.2.1 "dns:UDP::53::53"
      "dns" "UDP" "" "53" "" "53" 53 53
      (by decide) (by decide) (by decide) (by decide),
    parseNATNetworkRule71_spec.2.2.1 "x:gopher:a:1:b:2"
      "x" "gopher" "a" "1" "b" "2" (by decide) (by decide) (by decide),
    parseNATNetworkRule71_spec.2.2.2.2 "x:udp:a:70000:b:2"
      "x" "udp" "a" "70000" "b" "2" (by decide) (Or.inl (by decide))⟩

theorem wpRun_probes_checked (o : ProgressOracle) (eff : Int) :
    ∀ fuel i r ps, wpRun o eff fuel i = some (r, ps) →
      ∀ k ∈ ps, o.ctxDone k = false ∧ o.nowPastDeadline k = false := by
  intro fuel
  induction fuel with
  | zero =>
    intro i r ps h
    cases h
  | succ n ih =>
    intro i r ps h
    unfold wpRun at h
    by_cases hc : o.ctxDone i = true
    · rw [if_pos hc] at h
      simp only [Option.some.injEq, Prod.mk.injEq] at h
      obtain ⟨-, hps⟩ := h
      subst hps
      intro k hk
      cases hk
    · rw [Bool.not_eq_true] at hc
      rw [if_neg (by simp [hc])] at h
      by_cases hd : o.nowPastDeadline i = true
      · rw [if_pos hd] at h
        simp only [Option.some.injEq, Prod.mk.injEq] at h
        obtain ⟨-, hps⟩ := h
        subst hps
        intro k hk
        cases hk
      · rw [Bool.not_eq_true] at hd
        rw [if_neg (by simp [hd])] at h
        cases hcomp : o.completed i with
        | error e =>
          simp only [hcomp, Option.some.injEq, Prod.mk.injEq] at h
          obtain ⟨-, hps⟩ := h
          subst hps
          intro k hk
          rw [List.mem_singleton] at hk
          subst hk
          exact ⟨hc, hd⟩
        | ok b =>
          cases b with
          | true =>
            simp only [hcomp, Option.some.injEq, Prod.mk.injEq] at h
            obtain ⟨-, hps⟩ := h
            subst hps
            intro k hk
            rw [List.mem_singleton] at hk
            subst hk
            exact ⟨hc, hd⟩
          | false =>
            simp only [hcomp] at h
            cases hrec : wpRun o eff n (i + 1) with
            | none => rw [hrec] at h; cases h
            | some rp =>
              obtain ⟨r', ps'⟩ := rp
              rw [hrec] at h
              simp only [Option.some.injEq, Prod.mk.injEq] at h
              obtain ⟨-, hps⟩ := h
              subst hps
              intro k hk
              rw [List.mem_cons] at hk
              rcases hk with hk | hk
              · subst hk
                exact ⟨hc, hd⟩
              · exact ih (i + 1) r' ps' hrec k hk

theorem wpRun_cancelled (o : ProgressOracle) (eff : Int) (fuel i : Nat)
    (hc : o.ctxDone i = true) :
    wpRun o eff (fuel + 1) i = some (Except.error o.ctxError, []) := by
  unfold wpRun
  rw [if_pos hc]

theorem wpRun_deadline (o : ProgressOracle) (eff : Int) (fuel i : Nat)
    (hc : o.ctxDone i = false) (hd : o.nowPastDeadline i = true) :
    wpRun o eff (fuel + 1) i = some (Except.error (GoErr.timeoutAfter eff), []) := by
  unfold wpRun
  rw [if_neg (by simp [hc]), if_pos hd]

theorem ctxError_ne_timeout (o : ProgressOracle) (eff : Int) :
    o.ctxError ≠ GoErr.timeoutAfter eff := by
  unfold ProgressOracle.ctxError
  by_cases h : o.ctxIsCanceled <;> simp [h]

theorem wpRun_completes (o : ProgressOracle) (eff : Int) (fuel i : Nat)
    (hc : o.ctxDone i = false) (hd : o.nowPastDeadline i = false)
    (hcomp : o.completed i = Except.ok true) :
    wpRun o eff (fuel + 1) i = some (progressOutcome o, [i]) := by
  unfold wpRun
  rw [if_neg (by simp [hc]), if_neg (by simp [hd])]
  simp only [hcomp]

theorem progressOutcome_rc (o : ProgressOracle) (rc : Int)
    (hrc : o.resultCode = Except.ok rc) (hne : rc ≠ 0) :
    progressOutcome o = Except.error (GoErr.progressFailed rc
      (if o.errTextValue = "" then none else some o.errTextValue)) := by
  unfold progressOutcome
  rw [hrc]
  simp only []
  rw [if_pos hne]
  by_cases ht : o.errTextValue = ""
  · rw [if_neg (by simp [ht]), if_pos ht]
  · rw [if_pos ht, if_neg ht]

/-- C4: in the polling loop, every iteration that reaches the completion
probe saw the context not cancelled and the deadline not passed (so no
probe runs past the deadline); a cancelled context makes the loop return
the context's own error with no probe; a passed deadline makes it return
the timeout error carrying the configured (normalized) duration with no
probe; those two errors are distinct; a completed probe yields the
completion outcome; and a non-zero result code is a failure enriched
with the remote error text exactly when that text was obtainable and
non-empty. -/
theorem waitProgress_spec :
    ∀ (o : ProgressOracle) (timeout : Int),
      (∀ fuel i r ps, wpRun o (effTimeout timeout) fuel i = some (r, ps) →
        ∀ k ∈ ps, o.ctxDone k = false ∧ o.nowPastDeadline k = false)
      ∧ (∀ fuel i, o.ctxDone i = true →
          wpRun o (effTimeout timeout) (fuel + 1) i = some (Except.error o.ctxError, []))
      ∧ (∀ fuel i, o.ctxDone i = false → o.nowPastDeadline i = true →
          wpRun o (effTimeout timeout) (fuel + 1) i
            = some (Except.error (GoErr.timeoutAfter (effTimeout timeout)), []))
      ∧ o.ctxError ≠ GoErr.timeoutAfter (effTimeout timeout)
      ∧ (∀ fuel i, o.ctxDone i = false → o.nowPastDeadline i = false →
          o.completed i = Except.ok true →
          wpRun o (effTimeout timeout) (fuel + 1) i = some (progressOutcome o, [i]))
      ∧ (∀ rc, o.resultCode = Except.ok rc → rc ≠ 0 →
          progressOutcome o = Except.error (GoErr.progressFailed rc
            (if o.errTextValue = "" then none else some o.errTextValue))) :=
  fun o timeout =>
    ⟨wpRun_probes_checked o (effTimeout timeout),
      fun fuel i h => wpRun_cancelled o (effTimeout timeout) fuel i h,
      fun fuel i hc hd => wpRun_deadline o (effTimeout timeout) fuel i hc hd,
      ctxError_ne_timeout o (effTimeout timeout),
      fun fuel i hc hd hcomp => wpRun_completes o (effTimeout timeout) fuel i hc hd hcomp,
      fun rc hrc hne => progressOutcome_rc o rc hrc hne⟩

/-- Oracle of a context cancelled from the start. -/
def demoProgressCancel : ProgressOracle :=
  ⟨fun _ => true, true, fun _ => false, fun _ => Except.ok false, Except.ok 0, Except.ok ""⟩

/-- Oracle of a deadline already passed. -/
def demoProgressLate : ProgressOracle :=
  ⟨fun _ => false, false, fun _ => true, fun _ => Except.ok false, Except.ok 0, Except.ok ""⟩

/-- Oracle that completes at the third probe and fails with result code
5 and error text boom. -/
def demoProgressSlow : ProgressOracle :=
  ⟨fun _ => false, true, fun _ => false, fun i => Except.ok (decide (i ≥ 2)),
    Except.ok 5, Except.ok "boom"⟩

/-- Witness for waitProgress_spec on the three demo oracles. -/
theorem waitProgress_spec_witness :
    (demoProgressSlow.ctxDone 1 = false ∧ demoProgressSlow.nowPastDeadline 1 = false)
    ∧ wpRun demoProgressCancel (effTimeout 60) 1 0 = some (Except.error GoErr.ctxCanceled, [])
    ∧ wpRun demoProgressLate (effTimeout 60) 1 0
        = some (Except.error (GoErr.timeoutAfter (effTimeout 60)), [])
    ∧ wpRun demoProgressSlow (effTimeout 60) 3 2 = some (progressOutcome demoProgressSlow, [2])
    ∧ progressOutcome demoProgressSlow = Except.error (GoErr.progressFailed 5 (some "boom")) :=
  ⟨(waitProgress_spec demoProgressSlow 60).1 3 0 (progressOutcome demoProgressSlow)
      [0, 1, 2] rfl 1 (by decide),
    (waitProgress_spec demoProgressCancel 60).2.1 0 0 rfl,
    (waitProgress_spec demoProgressLate 60).2.2.1 0 0 rfl rfl,
    (waitProgress_spec demoProgressSlow 60).2.2.2.2.1 2 2 rfl rfl (by decide),
    (waitProgress_spec demoProgressSlow 60).2.2.2.2.2 5 rfl (by decide)⟩

theorem convergeStarted_idem (o : VBoxOracle) (sessionType : String) (timeout : Int) (fuel : Nat)
    (h : o.machineStates 0 = Except.ok MachineStateRunning) :
    convergeState o "started" sessionType timeout fuel ⟨0, []⟩
      = some (Except.ok MachineStateRunning, ⟨1, [Call.getMachineState]⟩) := by
  unfold convergeState readState
  simp only [h]
  rw [if_pos (by decide : goToLower "started" = "started")]
  simp

theorem convergeStopped_idem (o : VBoxOracle) (sessionType : String) (timeout : Int) (fuel : Nat)
    (h : o.machineStates 0 = Except.ok MachineStatePoweredOff) :
    convergeState o "stopped" sessionType timeout fuel ⟨0, []⟩
      = some (Except.ok MachineStatePoweredOff, ⟨1, [Call.getMachineState]⟩) := by
  unfold convergeState readState
  simp only [h]
  rw [if_neg (by decide : ¬ goToLower "stopped" = "started")]
  rw [if_pos (by decide : goToLower "stopped" = "stopped")]
  simp

theorem ensureRunning_frame (o : VBoxOracle) (sessionType : String) (timeout : Int) (fuel : Nat)
    (w : World) (res : Except GoErr Unit) (w' : World)
    (h : ensureRunning o sessionType timeout fuel w = some (res, w')) :
    w'.stateReads = w.stateReads ∧ (res = Except.ok () → Call.launchVMProcess ∈ w'.log) := by
  unfold ensureRunning at h
  cases hso : o.sessionObject with
  | error e =>
    simp only [hso, Option.some.injEq, Prod.mk.injEq] at h
    obtain ⟨hr, hw⟩ := h
    subst hw
    exact ⟨rfl, by rw [← hr]; intro hc; cases hc⟩
  | ok sessObj =>
    simp only [hso] at h
    cases hlp : o.launchProgress sessionType with
    | error e =>
      simp only [hlp, Option.some.injEq, Prod.mk.injEq] at h
      obtain ⟨hr, hw⟩ := h
      subst hw
      exact ⟨rfl, by rw [← hr]; intro hc; cases hc⟩
    | ok progressRef =>
      simp only [hlp] at h
      cases hwp : wpRun (o.progressOf progressRef) (effTimeout timeout) fuel 0 with
      | none => rw [hwp] at h; cases h
      | some rp =>
        obtain ⟨r, ps⟩ := rp
        rw [hwp] at h
        cases r with
        | error e =>
          simp only [Option.some.injEq, Prod.mk.injEq] at h
          obtain ⟨hr, hw⟩ := h
          subst hw
          exact ⟨rfl, by rw [← hr]; intro hc; cases hc⟩
        | ok u =>
          simp only [Option.some.injEq, Prod.mk.injEq] at h
          obtain ⟨hr, hw⟩ := h
          subst hw
          refine ⟨rfl, fun _ => ?_⟩
          simp [World.push, World.pushProbes]

theorem ensurePoweredOff_frame (o : VBoxOracle) (timeout : Int) (fuel : Nat)
    (w : World) (res : Except GoErr Unit) (w' : World)
    (h : ensurePoweredOff o timeout fuel w = some (res, w')) :
    w'.stateReads = w.stateReads ∧ (res = Except.ok () → Call.powerDown ∈ w'.log) := by
  unfold ensurePoweredOff at h
  cases hso : o.sessionObject with
  | error e =>
    simp only [hso, Option.some.injEq, Prod.mk.injEq] at h
    obtain ⟨hr, hw⟩ := h
    subst hw
    exact ⟨rfl, by rw [← hr]; intro hc; cases hc⟩
  | ok sessObj =>
    simp only [hso] at h
    cases hlk : o.lockResult with
    | error e =>
      simp only [hlk, Option.some.injEq, Prod.mk.injEq] at h
      obtain ⟨hr, hw⟩ := h
      subst hw
      exact ⟨rfl, by rw [← hr]; intro hc; cases hc⟩
    | ok u1 =>
      simp only [hlk] at h
      cases hcr : o.consoleRef with
      | error e =>
        simp only [hcr, Option.some.injEq, Prod.mk.injEq] at h
        obtain ⟨hr, hw⟩ := h
        subst hw
        exact ⟨rfl, by rw [← hr]; intro hc; cases hc⟩
      | ok console =>
        simp only [hcr] at h
        cases hpd : o.powerDownProgress with
        | error e =>
          simp only [hpd, Option.some.injEq, Prod.mk.injEq] at h
          obtain ⟨hr, hw⟩ := h
          subst hw
          exact ⟨rfl, by rw [← hr]; intro hc; cases hc⟩
        | ok progressRef =>
          simp only [hpd] at h
          cases hwp : wpRun (o.progressOf progressRef) (effTimeout timeout) fuel 0 with
          | none => rw [hwp] at h; cases h
          | some rp =>
            obtain ⟨r, ps⟩ := rp
            rw [hwp] at h
            cases r with
            | error e =>
              simp only [Option.some.injEq, Prod.mk.injEq] at h
              obtain ⟨hr, hw⟩ := h
              subst hw
              exact ⟨rfl, by rw [← hr]; intro hc; cases hc⟩
            | ok u =>
              simp only [Option.some.injEq, Prod.mk.injEq] at h
              obtain ⟨hr, hw⟩ := h
              subst hw
              refine ⟨rfl, fun _ => ?_⟩
              simp [World.push, World.pushProbes]

theorem convergeStarted_fresh (o : VBoxOracle) (sessionType : String) (timeout : Int)
    (fuel : Nat) (s st : String) (w' : World)
    (hs : o.machineStates 0 = Except.ok s) (hne : s ≠ MachineStateRunning)
    (h : convergeState o "started" sessionType timeout fuel ⟨0, []⟩
      = some (Except.ok st, w')) :
    o.machineStates 1 = Except.ok st ∧ Call.launchVMProcess ∈ w'.log := by
  unfold convergeState readState at h
  simp only [hs, List.nil_append, Nat.zero_add] at h
  rw [if_pos (by decide : goToLower "started" = "started")] at h
  rw [if_neg hne] at h
  cases her : ensureRunning o sessionType timeout fuel ⟨1, [Call.getMachineState]⟩ with
  | none => rw [her] at h; cases h
  | some rp =>
    obtain ⟨res, w2⟩ := rp
    rw [her] at h
    obtain ⟨hreads, hlaunch⟩ := ensureRunning_frame o sessionType timeout fuel _ res w2 her
    cases res with
    | error e => simp only at h; cases h
    | ok u =>
      simp only [] at h
      unfold rereadState readState at h
      cases hm2 : o.machineStates w2.stateReads with
      | error e => simp only [hm2] at h; cases h
      | ok st2 =>
        simp only [hm2, Option.some.injEq, Prod.mk.injEq, Except.ok.injEq] at h
        obtain ⟨hst, hw⟩ := h
        subst hst
        subst hw
        rw [hreads] at hm2
        refine ⟨hm2, ?_⟩
        have hm : Call.launchVMProcess ∈ w2.log := hlaunch rfl
        simp [hm]

theorem convergeStopped_fresh (o : VBoxOracle) (sessionType : String) (timeout : Int)
    (fuel : Nat) (s st : String) (w' : World)
    (hs : o.machineStates 0 = Except.ok s) (hne : s ≠ MachineStatePoweredOff)
    (h : convergeState o "stopped" sessionType timeout fuel ⟨0, []⟩
      = some (Except.ok st, w')) :
    o.machineStates 1 = Except.ok st ∧ Call.powerDown ∈ w'.log := by
  unfold convergeState readState at h
  simp only [hs, List.nil_append, Nat.zero_add] at h
  rw [if_neg (by decide : ¬ goToLower "stopped" = "started")] at h
  rw [if_pos (by decide : goToLower "stopped" = "stopped")] at h
  rw [if_neg hne] at h
  cases her : ensurePoweredOff o timeout fuel ⟨1, [Call.getMachineState]⟩ with
  | none => rw [her] at h; cases h
  | some rp =>
    obtain ⟨res, w2⟩ := rp
    rw [her] at h
    obtain ⟨hreads, hpower⟩ := ensurePoweredOff_frame o timeout fuel _ res w2 her
    cases res with
    | error e => simp only at h; cases h
    | ok u =>
      simp only [] at h
      unfold rereadState readState at h
      cases hm2 : o.machineStates w2.stateReads with
      | error e => simp only [hm2] at h; cases h
      | ok st2 =>
        simp only [hm2, Option.some.injEq, Prod.mk.injEq, Except.ok.injEq] at h
        obtain ⟨hst, hw⟩ := h
        subst hst
        subst hw
        rw [hreads] at hm2
        refine ⟨hm2, ?_⟩
        have hm : Call.powerDown ∈ w2.log := hpower rfl
        simp [hm]

/-- C3: state convergence is idempotent and reports only observed
state. If the first read already equals the target (Running for
"started", PoweredOff for "stopped"), the result is that state and the
world's log has exactly the one read and so no mutation call (launch,
lock, console, power-down). Otherwise, a successful convergence returns
exactly the value of the second, fresh machine-state read — never the
assumed target — and the log contains the transition call
(launch for "started", power-down for "stopped"). -/
theorem convergeState_spec :
    ∀ (o : VBoxOracle) (sessionType : String) (timeout : Int) (fuel : Nat),
      (o.machineStates 0 = Except.ok MachineStateRunning →
        convergeState o "started" sessionType timeout fuel ⟨0, []⟩
          = some (Except.ok MachineStateRunning, ⟨1, [Call.getMachineState]⟩)
        ∧ List.filter isMutationCall [Call.getMachineState] = [])
      ∧ (o.machineStates 0 = Except.ok MachineStatePoweredOff →
          convergeState o "stopped" sessionType timeout fuel ⟨0, []⟩
            = some (Except.ok MachineStatePoweredOff, ⟨1, [Call.getMachineState]⟩)
          ∧ List.filter isMutationCall [Call.getMachineState] = [])
      ∧ (∀ s st w', o.machineStates 0 = Except.ok s → s ≠ MachineStateRunning →
          convergeState o "started" sessionType timeout fuel ⟨0, []⟩
            = some (Except.ok st, w') →
          o.machineStates 1 = Except.ok st ∧ Call.launchVMProcess ∈ w'.log)
      ∧ (∀ s st w', o.machineStates 0 = Except.ok s → s ≠ MachineStatePoweredOff →
          convergeState o "stopped" sessionType timeout fuel ⟨0, []⟩
            = some (Except.ok st, w') →
          o.machineStates 1 = Except.ok st ∧ Call.powerDown ∈ w'.log) :=
  fun o sessionType timeout fuel =>
    ⟨fun h => ⟨convergeStarted_idem o sessionType timeout fuel h, by decide⟩,
      fun h => ⟨convergeStopped_idem o sessionType timeout fuel h, by decide⟩,
      fun s st w' hs hne h => convergeStarted_fresh o sessionType timeout fuel s st w' hs hne h,
      fun s st w' hs hne h => convergeStopped_fresh o sessionType timeout fuel s st w' hs hne h⟩

/-- Oracle of a machine already Running (later reads: PoweredOff). -/
def demoVBoxIdle : VBoxOracle :=
  ⟨fun i => if i = 0 then Except.ok MachineStateRunning else Except.ok MachineStatePoweredOff,
    Except.ok "sess", fun _ => Except.ok "p1", Except.ok (), Except.ok "console",
    Except.ok "p2", fun _ => ⟨fun _ => false, true, fun _ => false,
      fun _ => Except.ok true, Except.ok 0, Except.ok ""⟩⟩

/-- Oracle of a PoweredOff machine that starts on request: second read
observes Running; all transition calls succeed and the progress
completes at the first probe. -/
def demoVBoxStart : VBoxOracle :=
  ⟨fun i => if i = 0 then Except.ok MachineStatePoweredOff else Except.ok MachineStateRunning,
    Except.ok "sess", fun _ => Except.ok "p1", Except.ok (), Except.ok "console",
    Except.ok "p2", fun _ => ⟨fun _ => false, true, fun _ => false,
      fun _ => Except.ok true, Except.ok 0, Except.ok ""⟩⟩

/-- Witness for convergeState_spec: the idempotent case on an already
Running machine, and the fresh-re-read case on a machine that had to be
started. -/
theorem convergeState_spec_witness :
    (convergeState demoVBoxIdle "started" "headless" 60 1 ⟨0, []⟩
        = some (Except.ok MachineStateRunning, ⟨1, [Call.getMachineState]⟩)
      ∧ List.filter isMutationCall [Call.getMachineState] = [])
    ∧ (demoVBoxStart.machineStates 1 = Except.ok MachineStateRunning
      ∧ Call.launchVMProcess ∈ ([Call.getMachineState, Call.getSessionObject,
          Call.launchVMProcess, Call.progressProbe, Call.unlockSession,
          Call.getMachineState] : List Call)) :=
  ⟨(convergeState_spec demoVBoxIdle "headless" 60 1).1 rfl,
    (convergeState_spec demoVBoxStart "headless" 60 1).2.2.1
      MachineStatePoweredOff MachineStateRunning
      ⟨2, [Call.getMachineState, Call.getSessionObject, Call.launchVMProcess,
        Call.progressProbe, Call.unlockSession, Call.getMachineState]⟩
      rfl (by decide) rfl⟩

theorem read_bubbles (o : NATOracle) (machineID : String) (slot : Nat) (name : String)
    (w w1 : World) (e : GoErr)
    (h : findMachine o machineID w = (Except.error e, w1)) :
    (ReadNATPortForward o machineID slot name w).1 = Except.error e := by
  unfold ReadNATPortForward
  simp only [h]

theorem findMachine_notFound_text (o : NATOracle) (machineID : String) (w : World) (m : String)
    (hraw : o.findMachineRaw = Except.error m)
    (htxt : goContains (goToLower m) "could not find" = true
      ∨ goContains (goToLower m) "object not found" = true) :
    findMachine o machineID w
      = (Except.error (GoErr.notFound ("not found: machine " ++ machineID)),
          w.push Call.findMachineCall) := by
  unfold findMachine
  simp only [hraw]
  rcases htxt with ht | ht <;> simp [ht]

theorem findMachine_notFound_empty (o : NATOracle) (machineID : String) (w : World)
    (ref : String) (hraw : o.findMachineRaw = Except.ok ref) (hempty : goTrim ref = "") :
    findMachine o machineID w
      = (Except.error (GoErr.notFound ("not found: machine " ++ machineID)),
          w.push Call.findMachineCall) := by
  unfold findMachine
  simp only [hraw]
  simp [hempty]

theorem read_absent_rule (o : NATOracle) (machineID : String) (slot : Nat) (name : String)
    (w w1 : World) (ref ad ne : String) (rs : List NATRedirect)
    (hfm : findMachine o machineID w = (Except.ok ref, w1))
    (had : o.networkAdapter = Except.ok ad) (hne : o.natEngine = Except.ok ne)
    (hrs : o.redirects = Except.ok rs) (habs : ∀ r ∈ rs, r.Name ≠ name) :
    (ReadNATPortForward o machineID slot name w).1 = Except.ok none := by
  unfold ReadNATPortForward
  simp only [hfm, had, hne, hrs]
  have hfind : rs.find? (fun r => r.Name == name) = none := by
    rw [List.find?_eq_none]
    intro r hr
    simp [habs r hr]
  simp only [hfind]

/-- C6: ReadNATPortForward treats absent machine and absent rule
asymmetrically. Every findMachine failure bubbles up unchanged; when
the machine resolution reports not-found text or an empty reference, the
bubbled error is the distinguished NotFound (IsNotFound holds on it);
when the machine resolves but no redirect carries the requested name,
the result is ok none with no error. -/
theorem readNATPortForward_spec :
    ∀ (o : NATOracle) (machineID : String) (slot : Nat) (name : String) (w : World),
      (∀ e w1, findMachine o machineID w = (Except.error e, w1) →
        (ReadNATPortForward o machineID slot name w).1 = Except.error e)
      ∧ (∀ m, o.findMachineRaw = Except.error m →
          (goContains (goToLower m) "could not find" = true
            ∨ goContains (goToLower m) "object not found" = true) →
          (ReadNATPortForward o machineID slot name w).1
            = Except.error (GoErr.notFound ("not found: machine " ++ machineID))
          ∧ IsNotFound (GoErr.notFound ("not found: machine " ++ machineID)) = true)
      ∧ (∀ ref, o.findMachineRaw = Except.ok ref → goTrim ref = "" →
          (ReadNATPortForward o machineID slot name w).1
            = Except.error (GoErr.notFound ("not found: machine " ++ machineID))
          ∧ IsNotFound (GoErr.notFound ("not found: machine " ++ machineID)) = true)
      ∧ (∀ ref w1 ad ne rs, findMachine o machineID w = (Except.ok ref, w1) →
          o.networkAdapter = Except.ok ad → o.natEngine = Except.ok ne →
          o.redirects = Except.ok rs → (∀ r ∈ rs, r.Name ≠ name) →
          (ReadNATPortForward o machineID slot name w).1 = Except.ok none) :=
  fun o machineID slot name w =>
    ⟨fun e w1 h => read_bubbles o machineID slot name w w1 e h,
      fun m hraw htxt =>
        ⟨read_bubbles o machineID slot name w (w.push Call.findMachineCall) _
          (findMachine_notFound_text o machineID w m hraw htxt), rfl⟩,
      fun ref hraw hempty =>
        ⟨read_bubbles o machineID slot name w (w.push Call.findMachineCall) _
          (findMachine_notFound_empty o machineID w ref hraw hempty), rfl⟩,
      fun ref w1 ad ne rs hfm had hne hrs habs =>
        read_absent_rule o machineID slot name w w1 ref ad ne rs hfm had hne hrs habs⟩

/-- Oracle of a machine the remote cannot find. -/
def demoNATGone : NATOracle :=
  ⟨Except.error "VBoxWebSrv: Could not find a registered machine named vm1",
    Except.ok "so", Except.ok (), Except.ok "mm", Except.ok "ad", Except.ok "ne",
    Except.ok [], fun _ => Except.ok (), Except.ok ()⟩

/-- Oracle of an existing machine whose adapter only carries a redirect
named other; removal of any rule reports it missing. -/
def demoNATRuleGone : NATOracle :=
  ⟨Except.ok "mref", Except.ok "so", Except.ok (), Except.ok "mm", Except.ok "ad",
    Except.ok "ne", Except.ok [⟨"other", NATProtocol.TCP, "", 8080, "", 80⟩],
    fun _ => Except.error "NATEngine: redirect rule not found", Except.ok ()⟩

/-- Witness for readNATPortForward_spec: the absent machine surfaces as
NotFound, and the absent rule surfaces as ok none. -/
theorem readNATPortForward_spec_witness :
    ((ReadNATPortForward demoNATGone "vm1" 0 "web" ⟨0, []⟩).1
        = Except.error (GoErr.notFound "not found: machine vm1")
      ∧ IsNotFound (GoErr.notFound "not found: machine vm1") = true)
    ∧ (ReadNATPortForward demoNATRuleGone "vm1" 0 "web" ⟨0, []⟩).1 = Except.ok none :=
  ⟨(readNATPortForward_spec demoNATGone "vm1" 0 "web" ⟨0, []⟩).2.1
      "VBoxWebSrv: Could not find a registered machine named vm1" rfl (Or.inl (by decide)),
    (readNATPortForward_spec demoNATRuleGone "vm1" 0 "web" ⟨0, []⟩).2.2.2
      "mref" ⟨0, [Call.findMachineCall]⟩ "ad" "ne"
      [⟨"other", NATProtocol.TCP, "", 8080, "", 80⟩]
      (by decide) rfl rfl rfl (by decide)⟩

theorem delete_machine_gone (o : NATOracle) (machineID : String) (slot : Nat) (name : String)
    (w w1 : World) (e : GoErr)
    (hfm : findMachine o machineID w = (Except.error e, w1))
    (hnf : IsNotFound e = true) :
    DeleteNATPortForward o machineID slot name w = (Except.ok (), w1) := by
  unfold DeleteNATPortForward
  simp only [hfm]
  rw [if_pos hnf]

theorem delete_rule_gone (o : NATOracle) (machineID : String) (slot : Nat) (name : String)
    (w w1 : World) (ref so mm ad ne : String) (m : String)
    (hfm : findMachine o machineID w = (Except.ok ref, w1))
    (hso : o.sessionObject = Except.ok so)
    (hlk : o.lockResult = Except.ok ())
    (hmm : o.mutableMachine = Except.ok mm)
    (had : o.networkAdapter = Except.ok ad)
    (hne : o.natEngine = Except.ok ne)
    (hrm : o.removeRedirect name = Except.error m)
    (htxt : goContains (goToLower m) "not found" = true
      ∨ goContains (goToLower m) "does not exist" = true)
    (hss : o.saveSettings = Except.ok ()) :
    (DeleteNATPortForward o machineID slot name w).1 = Except.ok ()
      ∧ Call.saveSettings ∈ (DeleteNATPortForward o machineID slot name w).2.log := by
  unfold DeleteNATPortForward
  simp only [hfm, hso, hlk, hmm, had, hne, hrm, hss]
  rcases htxt with ht | ht <;>
    simp [ht, World.push, unlockW]

/-- C5: DeleteNATPortForward is idempotent with respect to absence — a
NotFound machine resolution returns success, and an absent rule (the
remote removal error text contains "not found" or "does not exist") is
swallowed while settings are still saved and the operation succeeds. -/
theorem deleteNATPortForward_spec :
    ∀ (o : NATOracle) (machineID : String) (slot : Nat) (name : String) (w : World),
      (∀ e w1, findMachine o machineID w = (Except.error e, w1) → IsNotFound e = true →
        DeleteNATPortForward o machineID slot name w = (Except.ok (), w1))
      ∧ (∀ ref w1 so mm ad ne m, findMachine o machineID w = (Except.ok ref, w1) →
          o.sessionObject = Except.ok so → o.lockResult = Except.ok () →
          o.mutableMachine = Except.ok mm → o.networkAdapter = Except.ok ad →
          o.natEngine = Except.ok ne →
          o.removeRedirect name = Except.error m →
          (goContains (goToLower m) "not found" = true
            ∨ goContains (goToLower m) "does not exist" = true) →
          o.saveSettings = Except.ok () →
          (DeleteNATPortForward o machineID slot name w).1 = Except.ok ()
            ∧ Call.saveSettings ∈ (DeleteNATPortForward o machineID slot name w).2.log) :=
  fun o machineID slot name w =>
    ⟨fun e w1 hfm hnf => delete_machine_gone o machineID slot name w w1 e hfm hnf,
      fun ref w1 so mm ad ne m hfm hso hlk hmm had hne hrm htxt hss =>
        delete_rule_gone o machineID slot name w w1 ref so mm ad ne m
          hfm hso hlk hmm had hne hrm htxt hss⟩

/-- Witness for deleteNATPortForward_spec: deleting under a vanished
machine succeeds, and deleting an absent rule succeeds while still
saving settings. -/
theorem deleteNATPortForward_spec_witness :
    DeleteNATPortForward demoNATGone "vm1" 0 "web" ⟨0, []⟩
      = (Except.ok (), ⟨0, [Call.findMachineCall]⟩)
    ∧ ((DeleteNATPortForward demoNATRuleGone "vm1" 0 "web" ⟨0, []⟩).1 = Except.ok ()
      ∧ Call.saveSettings ∈ (DeleteNATPortForward demoNATRuleGone "vm1" 0 "web" ⟨0, []⟩).2.log) :=
  ⟨(deleteNATPortForward_spec demoNATGone "vm1" 0 "web" ⟨0, []⟩).1
      (GoErr.notFound "not found: machine vm1") ⟨0, [Call.findMachineCall]⟩
      (by decide) rfl,
    (deleteNATPortForward_spec demoNATRuleGone "vm1" 0 "web" ⟨0, []⟩).2
      "mref" ⟨0, [Call.findMachineCall]⟩ "so" "mm" "ad" "ne"
      "NATEngine: redirect rule not found"
      (by decide) rfl rfl rfl rfl rfl rfl (Or.inl (by decide)) rfl⟩

end VBoxWeb
